import Mathlib

/-!
Shallow embedding of the poll/dispatch/response loop of `src/client.py`
(`WorkflowClient`) from the hubia-server repository, with theorems checking
the specification's claims about it.

Python dictionaries are modelled as association lists over a `Value` type;
Python exceptions as `Except`; the `asyncio` sleeps as a tagged `SleepKind`
recording which configuration delay was used.
-/

namespace Hubia

/-- A Python/JSON value as it appears in task payloads and processor results. -/
inductive Value where
  | none
  | str (s : String)
  | int (n : Int)
  | bool (b : Bool)
  | list (xs : List Value)
  | dict (d : List (String × Value))
deriving Repr

/-- A Python dict with string keys, as an association list (insertion order kept). -/
abbrev Dict := List (String × Value)

/-- `d.get(k)` returning `some v` when the key is present. -/
def dget (d : Dict) (k : String) : Option Value :=
  (d.find? (fun p => p.1 == k)).map (fun p => p.2)

/-- Python `d.get(k, default)`. -/
def dgetD (d : Dict) (k : String) (dflt : Value) : Value :=
  (dget d k).getD dflt

/-- Python `d[k] = v`: replace the value of an existing key in place,
otherwise append the new key at the end (dict insertion-order semantics;
an association list standing for a dict has no duplicate keys). -/
def dset : Dict → String → Value → Dict
  | [], k, v => [(k, v)]
  | p :: d, k, v => if p.1 == k then (k, v) :: d else p :: dset d k v

/-- Python `d.update(kvs)`. -/
def dictUpdate (d : Dict) (kvs : List (String × Value)) : Dict :=
  kvs.foldl (fun acc p => dset acc p.1 p.2) d

/-- Python truthiness of a value (`if success and result:` etc.). -/
def truthy : Value → Bool
  | .none => false
  | .str s => !s.isEmpty
  | .int n => n != 0
  | .bool b => b
  | .list xs => !xs.isEmpty
  | .dict d => !d.isEmpty

/-- Python `result.get(k, default)` on a value expected to be a dict
(`result.get("embedding", [])` and friends in `_send_response`). -/
def vgetD (v : Value) (k : String) (dflt : Value) : Value :=
  match v with
  | .dict d => dgetD d k dflt
  | _ => dflt

-- TaskType enum values (module constants at the top of client.py).
def EMBEDDING : String := "embedding"
def TRANSCRIBE : String := "transcribe"
def DESCRIBE : String := "describe"
def SUMMARIZE : String := "summarize"
def PROMPT : String := "prompt"
def KNOWLEDGE : String := "knowledge"

/-- A task record fetched from the workflow API (`data` of the poll body).
`task_id` and `action` are the subscripted fields (`task['task_id']`,
`task['action']`), always supplied by the API; the remaining fields are read
with `task.get(...)`, so an absent field is `Value.none`, and `metadata`
is `Option Dict` so that `task_data.get('metadata', {})` can default to `{}`
when the key is absent. -/
structure Task where
  task_id : String
  action : String
  content : Value := .none
  server_id : Value := .none
  conversation_id : Value := .none
  client_id : Value := .none
  channel_id : Value := .none
  message_id : Value := .none
  metadata : Option Dict := Option.none
deriving Repr

/-- `task_data.get('metadata', {})`. -/
def Task.metadataDict (t : Task) : Dict := t.metadata.getD []

/-- The error detail dict built in `_process_task`'s `except` branch. -/
structure ErrorDetail where
  code : String
  message : String
  details : String
deriving Repr

/-- The outbound submission payload built in `_send_response`. `success` and
`data` are `Option`s because the Python code only inserts those keys inside
the `if success and result:` / `else` branches; `Option.none` means the key
was never set (which can only happen for a truthy result whose task type
matches none of the six branches). -/
structure Payload where
  task_id : String
  type : String
  server_id : Value
  conversation_id : Value
  client_id : Value
  channel_id : Value
  message_id : Value
  metadata : Dict
  success : Option Bool := Option.none
  data : Option Value := Option.none
deriving Repr

/-- The keys of `self.processors` built in `WorkflowClient.__init__`. -/
def registeredActions : List String :=
  [TRANSCRIBE, DESCRIBE, SUMMARIZE, EMBEDDING, PROMPT, KNOWLEDGE]

/-- Payload preparation of `_send_response` (lines 176–227): the base payload
with the passthrough context fields and the task metadata, then the per-type
`if/elif` chain filling `success`/`data` (and, for the embedding family,
updating `metadata` with `dimensions`/`model`/`tokens` from the result). -/
def buildPayload (task_id : String) (task_type : String) (success : Bool)
    (result : Value) (task_data : Option Task) : Payload :=
  let md : Dict := match task_data with
    | some t => t.metadataDict
    | Option.none => []
  let base : Payload := {
    task_id := task_id
    type := task_type
    server_id := match task_data with | some t => t.server_id | Option.none => .none
    conversation_id := match task_data with | some t => t.conversation_id | Option.none => .none
    client_id := match task_data with | some t => t.client_id | Option.none => .none
    channel_id := match task_data with | some t => t.channel_id | Option.none => .none
    message_id := match task_data with | some t => t.message_id | Option.none => .none
    metadata := md }
  if success && truthy result then
    if task_type == EMBEDDING then
      { base with success := some true
                  data := some (vgetD result "embedding" (.list []))
                  metadata := dictUpdate md
                    [("dimensions", vgetD result "dimensions" (.int 0)),
                     ("model", vgetD result "model" (.str "")),
                     ("tokens", vgetD result "tokens" (.int 0))] }
    else if task_type == TRANSCRIBE then
      { base with success := some true
                  data := some (vgetD result "transcription" (.str "")) }
    else if task_type == DESCRIBE then
      { base with success := some true
                  data := some (vgetD result "description" (.str "")) }
    else if task_type == SUMMARIZE then
      { base with success := some true
                  data := some (vgetD result "summary" (.str "")) }
    else if task_type == PROMPT then
      { base with success := some true
                  data := some (vgetD result "response" (.str "")) }
    else if task_type == KNOWLEDGE then
      { base with success := some true
                  data := some (vgetD result "embedding" (.list []))
                  metadata := dictUpdate md
                    [("dimensions", vgetD result "dimensions" (.int 0)),
                     ("model", vgetD result "model" (.str "")),
                     ("tokens", vgetD result "tokens" (.int 0))] }
    else
      base
  else
    { base with success := some false, data := some .none }

/-- The arguments of a `_send_response(task_id, task_type, success, result,
error, task)` call as issued by `_process_task`: a failure submission carries
an `ErrorDetail`, a success submission carries the processor's result. -/
structure SubmitCall where
  task_id : String
  task_type : String
  success : Bool
  result : Value
  error : Option ErrorDetail
  task : Task
deriving Repr

/-- A capability's `process(task)` behaviour: either a result value or a
raised exception carrying its message. The concrete processors are external
collaborators; the dispatch loop only sees this contract. -/
abbrev Behavior := String → Task → Except String Value

/-- `_process_task` (lines 145–170): resolve the processor from the registry
(`self.processors.get(task['action'])`; a missing key raises `ValueError`
inside the same `try`), run `process`, and submit. Every exception — from the
lookup or from the capability — is caught by the single `except` branch,
which submits a failure with the `PROCESSING_ERROR` error detail. The
function is total: no exception escapes the dispatch boundary. -/
def process_task (behavior : Behavior) (task : Task) : SubmitCall :=
  let attempt : Except String Value :=
    if task.action ∈ registeredActions then
      behavior task.action task
    else
      .error ("Processador não encontrado para tipo: " ++ task.action)
  match attempt with
  | .ok result =>
      { task_id := task.task_id, task_type := task.action, success := true
        result := result, error := Option.none, task := task }
  | .error msg =>
      { task_id := task.task_id, task_type := task.action, success := false
        result := .none
        error := some { code := "PROCESSING_ERROR", message := msg
                        details := "Erro no processamento de " ++ task.action }
        task := task }

/-- Truncation applied to the `data` field of the diagnostic copy
(`result_to_log`) in `_send_response`: strings are sliced to 100 characters,
lists longer than 10 elements to 10 elements, all else untouched. -/
def truncData : Value → Value
  | .str s => .str (s.take 100)
  | .list xs => if 10 < xs.length then .list (xs.take 10) else .list xs
  | v => v

/-- `result_to_log = payload.copy()` followed by the `if result_to_log.get('data'):`
truncation block (lines 229–234). It produces a fresh payload for logging;
the original is left untouched. -/
def truncateForLog (p : Payload) : Payload :=
  match p.data with
  | some d => if truthy d then { p with data := some (truncData d) } else p
  | Option.none => p

/-- What the POST of the envelope comes back with: an HTTP status code, or a
transport-level exception with its message. -/
inductive PostOutcome where
  | status (code : Nat)
  | transportError (msg : String)
deriving Repr

/-- The log line produced by the submission block of `_send_response`. -/
inductive SubmitLog where
  | okLog
  | invalidToken
  | errorLog (code : Nat)
  | transportLog (msg : String)
deriving Repr

/-- The body of the second `try` of `_send_response` (lines 241–264): one
POST, then `status == 200` → success log, `status == 401` → invalid-token
log, anything else → error log; a transport failure raises. -/
def postBody : PostOutcome → Except String SubmitLog
  | .status code =>
      if code == 200 then .ok .okLog
      else if code == 401 then .ok .invalidToken
      else .ok (.errorLog code)
  | .transportError m => .error m

/-- The submission block with its `except Exception` handler (lines 266–267):
a raised transport error is printed and swallowed, so the step is total and
the envelope is posted exactly once — there is no retry construct. -/
def submitStep (o : PostOutcome) : SubmitLog :=
  match postBody o with
  | .ok l => l
  | .error m => .transportLog m

/-- `_send_response` as a whole: build the payload, emit the truncated
diagnostic preview, POST the (untruncated) payload once and classify the
outcome. Returns (diagnostic preview, posted payload, submission log). -/
def send_response (post : PostOutcome) (call : SubmitCall) :
    Payload × Payload × SubmitLog :=
  let payload := buildPayload call.task_id call.task_type call.success
    call.result (some call.task)
  (truncateForLog payload, payload, submitStep post)

/-- The JSON body of a successful poll response:
`{ success: bool, message: string, data: Task|null }`. -/
structure PollBody where
  success : Bool
  message : String
  data : Option Task
deriving Repr

/-- What one poll attempt observes: a 2xx response with a JSON body
(`raise_for_status` passed), an `httpx.HTTPError` carrying a response with a
status code, or a connection-level error with no response attached. -/
inductive PollOutcome where
  | ok (body : PollBody)
  | httpStatus (code : Nat)
  | connError (msg : String)
deriving Repr

/-- Which configured delay a sleep used. -/
inductive SleepKind where
  | retryDelay
  | pollingInterval
deriving Repr, DecidableEq

/-- The polling-related configuration fields of `Config`. -/
structure Config where
  polling_interval_seconds : Nat
  retry_delay_seconds : Nat
deriving Repr

/-- The number of seconds `self._sleep` is invoked with for each sleep kind. -/
def sleepSeconds (c : Config) : SleepKind → Nat
  | .retryDelay => c.retry_delay_seconds
  | .pollingInterval => c.polling_interval_seconds

/-- `_polling_request` (lines 86–117): a 2xx response is returned for
processing; on an `httpx.HTTPError`, status 401 returns `None` immediately
(no sleep), every other status — 500, 404 or other — and any connection
error print a message, sleep `retry_delay_seconds` and return `None`. -/
def polling_request : PollOutcome → Option PollBody × Option SleepKind
  | .ok body => (some body, Option.none)
  | .httpStatus code =>
      if code == 500 then (Option.none, some .retryDelay)
      else if code == 404 then (Option.none, some .retryDelay)
      else if code == 401 then (Option.none, Option.none)
      else (Option.none, some .retryDelay)
  | .connError _ => (Option.none, some .retryDelay)

/-- The observable outcome of one iteration of the polling loop: which sleep
was performed (if any) and the submissions made (each with its diagnostic
preview, posted payload, submit call and submission log). -/
structure IterResult where
  sleep : Option SleepKind
  submits : List (SubmitCall × Payload × Payload × SubmitLog)
deriving Repr

/-- The environment an iteration runs against: the capabilities' behaviour
and the outcome the result POST will have. -/
structure Env where
  behavior : Behavior
  post : PostOutcome

/-- `_process_polling_response` (lines 119–143): `success == False` →
sleep `retry_delay_seconds`; `data == None` → sleep
`polling_interval_seconds`; otherwise dispatch the task via
`_process_task`, which submits exactly one envelope and never raises. -/
def process_polling_response (env : Env) (body : PollBody) : IterResult :=
  if body.success == false then
    { sleep := some .retryDelay, submits := [] }
  else
    match body.data with
    | Option.none => { sleep := some .pollingInterval, submits := [] }
    | some task =>
        let call := process_task env.behavior task
        let (preview, posted, log) := send_response env.post call
        { sleep := Option.none, submits := [(call, preview, posted, log)] }

/-- `_polling` (lines 67–84): request, then — unless the request already
handled the failure and returned `None` — process the response. -/
def pollingIteration (env : Env) (outcome : PollOutcome) : IterResult :=
  match polling_request outcome with
  | (Option.none, slept) => { sleep := slept, submits := [] }
  | (some body, _) => process_polling_response env body

/-- The `while self.is_running:` loop of `start` (lines 44–59) over a finite
trace of poll outcomes: every iteration runs `_polling` and, because each
iteration is total, the loop always reaches the next one. -/
def runLoop (env : Env) (outcomes : List PollOutcome) : List IterResult :=
  outcomes.map (pollingIteration env)

/-! Helper lemmas about dict operations. -/

theorem dget_dset_self (d : Dict) (k : String) (v : Value) :
    dget (dset d k v) k = some v := by
  induction d with
  | nil => simp [dset, dget, List.find?]
  | cons p d ih =>
      by_cases h : p.1 == k
      · simp [dset, h, dget, List.find?]
      · simpa [dset, h, dget, List.find?] using ih

theorem dget_dset_ne (d : Dict) (k k' : String) (v : Value) (h : k' ≠ k) :
    dget (dset d k v) k' = dget d k' := by
  have hk : (k == k') = false := by
    simp [beq_iff_eq]
    exact fun hkk => h hkk.symm
  induction d with
  | nil => simp [dset, dget, List.find?, hk]
  | cons p d ih =>
      by_cases hp : p.1 == k
      · have hpk : p.1 = k := by simpa [beq_iff_eq] using hp
        have hp' : (p.1 == k') = false := by
          simp [beq_iff_eq, hpk]
          exact fun hkk => h hkk.symm
        simp [dset, hp, dget, List.find?, hk, hp']
      · by_cases hq : p.1 == k'
        · simp [dset, hp, dget, List.find?, hq]
        · simpa [dset, hp, dget, List.find?, hq] using ih

theorem dget_dset_isSome (d : Dict) (k k' : String) (v : Value)
    (h : (dget d k').isSome) : (dget (dset d k v) k').isSome := by
  by_cases hk : k' = k
  · subst hk; simp [dget_dset_self]
  · rw [dget_dset_ne d k k' v hk]; exact h

/-! Theorems for the specification's claims. -/

/-- Claim C3: for every successful poll response whose `data` field is null, the
loop sleeps exactly `polling_interval_seconds` — a sleep kind distinct from
`retry_delay_seconds` — before the next iteration. -/
theorem c3_null_data_sleeps_polling_interval (env : Env) (body : PollBody)
    (hs : body.success = true) (hd : body.data = Option.none) :
    (pollingIteration env (.ok body)).sleep = some SleepKind.pollingInterval ∧
    SleepKind.pollingInterval ≠ SleepKind.retryDelay ∧
    ∀ c : Config, sleepSeconds c SleepKind.pollingInterval = c.polling_interval_seconds := by
  refine ⟨?_, by decide, fun c => rfl⟩
  simp [pollingIteration, polling_request, process_polling_response, hs, hd]

/-- Witness for C3 at a concrete empty poll body. -/
theorem c3_witness :
    (pollingIteration { behavior := fun _ _ => .ok .none, post := .status 200 }
        (.ok { success := true, message := "", data := Option.none })).sleep =
      some SleepKind.pollingInterval :=
  (c3_null_data_sleeps_polling_interval _ _ rfl rfl).1

/-- Claim C4: every poll attempt ending in a transport-level failure (connection
error, or an HTTP error status such as 5xx/404 other than 401) or in a
response with `success=false` sleeps exactly `retry_delay_seconds`. -/
theorem c4_poll_failure_sleeps_retry_delay (env : Env) (outcome : PollOutcome)
    (h : (∃ code, outcome = .httpStatus code ∧ code ≠ 401) ∨
         (∃ m, outcome = .connError m) ∨
         (∃ body, outcome = .ok body ∧ body.success = false)) :
    (pollingIteration env outcome).sleep = some SleepKind.retryDelay ∧
    ∀ c : Config, sleepSeconds c SleepKind.retryDelay = c.retry_delay_seconds := by
  refine ⟨?_, fun c => rfl⟩
  rcases h with ⟨code, rfl, hc⟩ | ⟨m, rfl⟩ | ⟨body, rfl, hb⟩
  · by_cases h5 : code == 500
    · simp [pollingIteration, polling_request, h5]
    · by_cases h4 : code == 404
      · simp [pollingIteration, polling_request, h5, h4]
      · simp [pollingIteration, polling_request, h5, h4, hc]
  · simp [pollingIteration, polling_request]
  · simp [pollingIteration, polling_request, process_polling_response, hb]

/-- Witness for C4 at a concrete 500 poll outcome. -/
theorem c4_witness :
    (pollingIteration { behavior := fun _ _ => .ok .none, post := .status 200 }
        (.httpStatus 500)).sleep = some SleepKind.retryDelay :=
  (c4_poll_failure_sleeps_retry_delay _ _ (Or.inl ⟨500, rfl, by decide⟩)).1

/-- Claim C5: a poll attempt receiving HTTP status 401 performs no sleep at all and
makes no submission: the iteration ends immediately and the loop returns to
polling. -/
theorem c5_401_no_sleep (env : Env) :
    pollingIteration env (.httpStatus 401) =
      { sleep := Option.none, submits := [] } := by
  rfl

/-- Claim C10: a task processed without exception whose capability returned a falsy
result (such as an empty map or null) is submitted with `success=false` and
`data=null`, and the payload coincides with the one a failed processing would
have produced, even though `_send_response` was invoked with `success=True`. -/
theorem c10_falsy_result_submitted_as_failure (tid ttype : String) (task : Task)
    (result : Value) (h : truthy result = false) :
    (buildPayload tid ttype true result (some task)).success = some false ∧
    (buildPayload tid ttype true result (some task)).data = some Value.none ∧
    buildPayload tid ttype true result (some task) =
      buildPayload tid ttype false Value.none (some task) := by
  refine ⟨?_, ?_, ?_⟩ <;> simp [buildPayload, h]

/-- Witness for C10 at a concrete empty-map result. -/
theorem c10_witness :
    (buildPayload "t1" "prompt" true (Value.dict [])
        (some { task_id := "t1", action := "prompt" })).success = some false :=
  (c10_falsy_result_submitted_as_failure "t1" "prompt"
    { task_id := "t1", action := "prompt" } (Value.dict []) rfl).1

/-- Claim C1: an exception raised by the resolved capability's `process()` is
caught at the dispatch boundary and converted into a failure submission whose
error detail carries the code `PROCESSING_ERROR`, the raised message, and the
task's action; the dispatch step still produces exactly one submission
(`process_task` is total, so nothing propagates) and the loop runs every
subsequent iteration of its trace. -/
theorem c1_processing_exception_caught (env : Env) (task : Task) (msg : String)
    (hreg : task.action ∈ registeredActions)
    (hraise : env.behavior task.action task = .error msg) :
    (process_task env.behavior task).success = false ∧
    (process_task env.behavior task).error =
      some { code := "PROCESSING_ERROR", message := msg,
             details := "Erro no processamento de " ++ task.action } ∧
    (∀ m, (pollingIteration env
        (.ok { success := true, message := m, data := some task })).submits =
      [(process_task env.behavior task,
        send_response env.post (process_task env.behavior task))]) ∧
    ∀ outcomes : List PollOutcome, (runLoop env outcomes).length = outcomes.length := by
  refine ⟨?_, ?_, ?_, fun outcomes => by simp [runLoop]⟩
  · simp [process_task, hreg, hraise]
  · simp [process_task, hreg, hraise]
  · intro m
    simp [pollingIteration, polling_request, process_polling_response, send_response]

/-- Witness for C1: a registered action whose capability raises `"boom"`. -/
theorem c1_witness :
    (process_task (fun _ _ => .error "boom")
        { task_id := "t1", action := "prompt" }).error =
      some { code := "PROCESSING_ERROR", message := "boom",
             details := "Erro no processamento de prompt" } :=
  (c1_processing_exception_caught
    { behavior := fun _ _ => .error "boom", post := .status 200 }
    { task_id := "t1", action := "prompt" } "boom" (by decide) rfl).2.1

/-- Counterexample for C2: the task with unregistered action `"foo"` is
submitted with an error detail of code `PROCESSING_ERROR` — exactly the same
code produced when a capability raises — not a distinct `UnknownAction` kind,
contradicting the claim's parenthetical. -/
theorem c2_counterexample :
    (process_task (fun _ _ => .ok (Value.dict [("response", Value.str "hi")]))
        { task_id := "t9", action := "foo" }).error =
      some { code := "PROCESSING_ERROR",
             message := "Processador não encontrado para tipo: foo",
             details := "Erro no processamento de foo" } ∧
    (process_task (fun _ _ => .error "boom")
        { task_id := "t8", action := "prompt" }).error =
      some { code := "PROCESSING_ERROR", message := "boom",
             details := "Erro no processamento de prompt" } :=
  ⟨rfl, rfl⟩

/-- Claim C2 as amended: for every task whose action is not a key of the
processor registry, the loop still proceeds to submission with
`success=false` and a populated error detail — of code `PROCESSING_ERROR`
with message `"Processador não encontrado para tipo: <action>"`, the same
kind used for capability exceptions, not a distinct `UnknownAction` kind —
and the loop continues polling afterward. -/
theorem c2_unknown_action_submitted_as_failure (env : Env) (task : Task)
    (h : task.action ∉ registeredActions) :
    (process_task env.behavior task).success = false ∧
    (process_task env.behavior task).error =
      some { code := "PROCESSING_ERROR",
             message := "Processador não encontrado para tipo: " ++ task.action,
             details := "Erro no processamento de " ++ task.action } ∧
    (∀ m, (pollingIteration env
        (.ok { success := true, message := m, data := some task })).submits.length = 1) ∧
    ∀ outcomes : List PollOutcome, (runLoop env outcomes).length = outcomes.length := by
  refine ⟨?_, ?_, ?_, fun outcomes => by simp [runLoop]⟩
  · simp [process_task, h]
  · simp [process_task, h]
  · intro m
    simp [pollingIteration, polling_request, process_polling_response, send_response]

/-- Witness for the amended C2 at the unregistered action `"foo"`. -/
theorem c2_witness :
    (process_task (fun _ _ => .ok (Value.dict []))
        { task_id := "t9", action := "foo" }).success = false :=
  (c2_unknown_action_submitted_as_failure
    { behavior := fun _ _ => .ok (Value.dict []), post := .status 200 }
    { task_id := "t9", action := "foo" } (by decide)).1

/-- Claim C6: for a successfully processed task of the embedding family
(`embedding` or `knowledge`) with a truthy result, the submitted envelope's
metadata contains `dimensions`, `model` and `tokens` taken from the
processor's result (with the code's defaults when absent there), and every
key of the input task's metadata is still a key of the envelope's metadata. -/
theorem c6_embedding_metadata_merged (tid ttype : String) (task : Task)
    (result : Value)
    (htype : ttype = EMBEDDING ∨ ttype = KNOWLEDGE)
    (htruthy : truthy result = true) :
    dget (buildPayload tid ttype true result (some task)).metadata "dimensions" =
      some (vgetD result "dimensions" (.int 0)) ∧
    dget (buildPayload tid ttype true result (some task)).metadata "model" =
      some (vgetD result "model" (.str "")) ∧
    dget (buildPayload tid ttype true result (some task)).metadata "tokens" =
      some (vgetD result "tokens" (.int 0)) ∧
    ∀ k, (dget task.metadataDict k).isSome = true →
      (dget (buildPayload tid ttype true result (some task)).metadata k).isSome = true := by
  have hmeta : (buildPayload tid ttype true result (some task)).metadata =
      dset (dset (dset task.metadataDict
          "dimensions" (vgetD result "dimensions" (.int 0)))
          "model" (vgetD result "model" (.str "")))
          "tokens" (vgetD result "tokens" (.int 0)) := by
    rcases htype with rfl | rfl
    · simp [buildPayload, htruthy, dictUpdate, EMBEDDING]
    · simp [buildPayload, htruthy, dictUpdate,
        EMBEDDING, TRANSCRIBE, DESCRIBE, SUMMARIZE, PROMPT, KNOWLEDGE]
  rw [hmeta]
  refine ⟨?_, ?_, ?_, fun k hk => ?_⟩
  · rw [dget_dset_ne _ _ _ _ (by decide), dget_dset_ne _ _ _ _ (by decide),
      dget_dset_self]
  · rw [dget_dset_ne _ _ _ _ (by decide), dget_dset_self]
  · rw [dget_dset_self]
  · exact dget_dset_isSome _ _ _ _
      (dget_dset_isSome _ _ _ _ (dget_dset_isSome _ _ _ _ hk))

/-- Witness for C6: a concrete embedding result merged over task metadata. -/
theorem c6_witness :
    dget (buildPayload "e1" "embedding" true
        (Value.dict [("embedding", Value.list [Value.int 1]),
                     ("dimensions", Value.int 768),
                     ("model", Value.str "nomic"),
                     ("tokens", Value.int 5)])
        (some { task_id := "e1", action := "embedding",
                metadata := some [("source", Value.str "doc")] })).metadata
      "dimensions" = some (Value.int 768) :=
  (c6_embedding_metadata_merged "e1" "embedding"
    { task_id := "e1", action := "embedding",
      metadata := some [("source", Value.str "doc")] }
    (Value.dict [("embedding", Value.list [Value.int 1]),
                 ("dimensions", Value.int 768),
                 ("model", Value.str "nomic"),
                 ("tokens", Value.int 5)])
    (Or.inl rfl) rfl).1

/-- Claim C7: the end-to-end scenario — task `{task_id:"t1", action:"prompt",
content:"hello"}` with a capability returning `{response:"hi"}` — produces
the posted envelope `{task_id:"t1", type:"prompt", success:true, data:"hi",
metadata:{}}` with the context passthrough fields null as on the task. -/
theorem c7_prompt_end_to_end :
    (send_response (.status 200)
        (process_task (fun _ _ => .ok (Value.dict [("response", Value.str "hi")]))
          { task_id := "t1", action := "prompt", content := Value.str "hello" })).2.1 =
      { task_id := "t1", type := "prompt",
        server_id := .none, conversation_id := .none, client_id := .none,
        channel_id := .none, message_id := .none,
        metadata := [], success := some true, data := some (Value.str "hi") } := by
  rfl

/-- Claim C8: the diagnostic preview (string data truncated to 100
characters, list data longer than 10 truncated to 10) is computed on a copy:
the payload actually POSTed is exactly the builder's untruncated payload, as
the concrete 11-element embedding shows (the preview is truncated, the posted
data is not). -/
theorem c8_preview_truncation_leaves_posted_payload_unchanged :
    (∀ (post : PostOutcome) (call : SubmitCall),
      (send_response post call).2.1 =
        buildPayload call.task_id call.task_type call.success call.result
          (some call.task) ∧
      (send_response post call).1 = truncateForLog (send_response post call).2.1) ∧
    (send_response (.status 200)
        { task_id := "e1", task_type := "embedding", success := true,
          result := Value.dict
            [("embedding", Value.list (List.replicate 11 (Value.int 0)))],
          error := Option.none,
          task := { task_id := "e1", action := "embedding" } }).2.1.data =
      some (Value.list (List.replicate 11 (Value.int 0))) ∧
    (send_response (.status 200)
        { task_id := "e1", task_type := "embedding", success := true,
          result := Value.dict
            [("embedding", Value.list (List.replicate 11 (Value.int 0)))],
          error := Option.none,
          task := { task_id := "e1", action := "embedding" } }).1.data =
      some (Value.list (List.replicate 10 (Value.int 0))) := by
  exact ⟨fun post call => ⟨rfl, rfl⟩, rfl, rfl⟩

/-- Claim C9: a result POST that returns a non-2xx, non-401 status or fails
at the transport level is classified into a failure log and swallowed: the
submit step is a total function (no exception reaches the loop), the
iteration still makes exactly one submission, and the loop runs every
subsequent iteration of its trace — there is no retry construct. -/
theorem c9_submission_failure_swallowed (behavior : Behavior) (task : Task)
    (m : String) (code : Nat)
    (h2xx : ¬ (200 ≤ code ∧ code < 300)) (h401 : code ≠ 401) :
    submitStep (.status code) = .errorLog code ∧
    submitStep (.transportError m) = .transportLog m ∧
    (pollingIteration { behavior := behavior, post := .status code }
        (.ok { success := true, message := "", data := some task })).submits.length = 1 ∧
    (pollingIteration { behavior := behavior, post := .transportError m }
        (.ok { success := true, message := "", data := some task })).submits.length = 1 ∧
    ∀ outcomes : List PollOutcome,
      (runLoop { behavior := behavior, post := .status code } outcomes).length =
        outcomes.length := by
  have h200 : code ≠ 200 := by
    intro hc
    subst hc
    exact h2xx (by omega)
  refine ⟨?_, rfl, ?_, ?_, fun outcomes => by simp [runLoop]⟩
  · simp [submitStep, postBody, h200, h401]
  · simp [pollingIteration, polling_request, process_polling_response]
  · simp [pollingIteration, polling_request, process_polling_response]

/-- Witness for C9 at a concrete 503 submission outcome. -/
theorem c9_witness :
    submitStep (.status 503) = .errorLog 503 :=
  (c9_submission_failure_swallowed (fun _ _ => .ok .none)
    { task_id := "t1", action := "prompt" } "conn reset" 503
    (by omega) (by omega)).1

end Hubia
